import Mathlib

/-!
Verification model of `ote_sdk/usecases/exportable_code/streamer/streamer.py`.

The module is embedded shallowly.  The external collaborators (the `os`
module, the `cv2` decoding library, the Python builtin `int`) are modelled
by an explicit environment `Env`; every operation that creates a fresh
image buffer (`cv2.imread`, `cv2.cvtColor`) draws a fresh identifier from
an allocation counter that is threaded through construction and iteration,
so that buffer identity (which yields share one underlying object) is
observable in the model.  Generator bodies are embedded as step-indexed
runners: one step of a runner executes one pass through the body of the
corresponding `while` loop, and a `stopped` status marks the point where
the generator terminates.  Diagnostic message texts follow the source with
the ASCII apostrophe dropped; that character is avoided throughout this
file.
-/

/-- A decoded image buffer: `buf` is the identity of the underlying array
object (fresh per allocation), `data` abstracts the pixel content. -/
structure Frame where
  buf : Nat
  data : Nat
deriving DecidableEq

/-- The two exception classes of the module: `InvalidInput` and `OpenError`,
each carrying its message. -/
inductive StreamError where
  | invalidInput (message : String)
  | openError (message : String)
deriving DecidableEq

/-- The `MediaType` enum of the module. -/
inductive MediaType where
  | IMAGE
  | DIR
  | VIDEO
  | CAMERA
deriving DecidableEq

/-- The external world: filesystem (`os.path.isfile`, `os.path.isdir`,
`os.listdir`), the `cv2` decoding library, and the Python builtin `int`
applied to the locator (`none` models a `ValueError`).  `imreadData p` is
the decoded BGR content of `cv2.imread(p)` or `none`; `videoOpens p` is the
status of `cv2.VideoCapture().open(p)`; `videoData p` lists the decodable
frames of an opened video; `cameraData d` lists the frames device `d` will
deliver before a read fails; `cvtData` is the content change performed by
`cv2.cvtColor(-, COLOR_BGR2RGB)`. -/
structure Env where
  isFile : String → Bool
  isDir : String → Bool
  listdir : String → List String
  imreadData : String → Option Nat
  videoOpens : String → Bool
  videoData : String → List Nat
  cameraData : Int → List Nat
  cvtData : Nat → Nat
  parseInt : String → Option Int

/-- `os.path.join` for the one shape used by the module. -/
def joinPath (dir name : String) : String := dir ++ "/" ++ name

/-- Python string comparison: lexicographic on the code-point sequence.
`sorted(...)` in `DirStreamer.__init__` sorts by this order. -/
def strLe (a b : String) : Prop := a.data ≤ b.data

instance : DecidableRel strLe := fun a b => inferInstanceAs (Decidable (a.data ≤ b.data))

instance : IsTotal String strLe := ⟨fun a b => le_total a.data b.data⟩

instance : IsTrans String strLe := ⟨fun _ _ _ h1 h2 => le_trans h1 h2⟩

/-- `cv2.imread(input_path, IMREAD_COLOR)`: returns a freshly allocated
buffer holding the decoded content, or `None`; `a` is the allocation
counter. -/
def imread (env : Env) (input_path : String) (a : Nat) : Option Frame × Nat :=
  match env.imreadData input_path with
  | none => (none, a)
  | some d => (some { buf := a, data := d }, a + 1)

/-- `cv2.cvtColor(image, COLOR_BGR2RGB)`: allocates a fresh buffer holding
the converted content. -/
def cvtColor (env : Env) (d : Nat) (a : Nat) : Frame × Nat :=
  ({ buf := a, data := env.cvtData d }, a + 1)

/-- The state of an opened `cv2.VideoCapture`: the decodable frame contents
and the current read position (`CAP_PROP_POS_FRAMES`). -/
structure Cap where
  frames : List Nat
  pos : Nat
deriving DecidableEq

/-- `cap.read()`: at a valid position returns the frame there and advances;
past the end returns a failure status and leaves the position unchanged. -/
def Cap.read (c : Cap) : Option Nat × Cap :=
  match c.frames[c.pos]? with
  | some d => (some d, { c with pos := c.pos + 1 })
  | none => (none, c)

/-- Whether one pass of a runner below has hit the point where the
generator terminates. -/
inductive RunStatus where
  | running
  | stopped
deriving DecidableEq

/-- Result of running a generator body for a number of steps: the frames
yielded so far, the streamer state and allocation counter afterwards, and
whether the generator has terminated. -/
structure RunOut (σ : Type) where
  yields : List Frame
  state : σ
  alloc : Nat
  status : RunStatus
deriving DecidableEq

/-- State of an `ImageStreamer` object after `__init__`. -/
structure ImageStreamer where
  loop : Bool
  media_type : MediaType
  image : Frame
deriving DecidableEq

/-- `ImageStreamer.__init__` (streamer.py lines 223-231): missing file
raises `InvalidInput`; undecodable file raises `OpenError`; otherwise the
decoded image is converted to RGB once and stored. -/
def ImageStreamer.init (env : Env) (input_path : String) (loop : Bool) (a : Nat) :
    Except StreamError ImageStreamer × Nat :=
  if env.isFile input_path = false then
    (.error (.invalidInput ("Cant find the image by " ++ input_path)), a)
  else
    match imread env input_path a with
    | (none, a2) => (.error (.openError ("Cant open the image from " ++ input_path)), a2)
    | (some img, a2) =>
      let (rgb, a3) := cvtColor env img.data a2
      (.ok { loop := loop, media_type := .IMAGE, image := rgb }, a3)

/-- `ImageStreamer.__iter__` (lines 233-238): with `loop` false the stored
image is yielded once and the generator ends; with `loop` true the same
stored image is yielded on every step.  `steps` counts the yields
requested. -/
def ImageStreamer.yields (s : ImageStreamer) (steps : Nat) : List Frame :=
  if s.loop then List.replicate steps s.image else [s.image].take steps

/-- State of a `VideoStreamer` object after `__init__`. -/
structure VideoStreamer where
  media_type : MediaType
  loop : Bool
  cap : Cap
deriving DecidableEq

/-- `VideoStreamer.__init__` (lines 149-155): any failed open raises
`InvalidInput`. -/
def VideoStreamer.init (env : Env) (input_path : String) (loop : Bool) :
    Except StreamError VideoStreamer :=
  if env.videoOpens input_path = true then
    .ok { media_type := .VIDEO, loop := loop,
          cap := { frames := env.videoData input_path, pos := 0 } }
  else
    .error (.invalidInput ("Cant open the video from " ++ input_path))

/-- `VideoStreamer.__iter__` (lines 157-166), one step per pass through the
`while True` body: a successful read is converted and yielded; a failed
read seeks back to frame zero when `loop` is set, and ends the generator
otherwise. -/
def VideoStreamer.run (env : Env) (v : VideoStreamer) (a : Nat) : Nat → RunOut VideoStreamer
  | 0 => { yields := [], state := v, alloc := a, status := .running }
  | n + 1 =>
    match v.cap.read with
    | (some d, c2) =>
      let (f, a2) := cvtColor env d a
      let r := VideoStreamer.run env { v with cap := c2 } a2 n
      { yields := f :: r.yields, state := r.state, alloc := r.alloc, status := r.status }
    | (none, c2) =>
      if v.loop then
        VideoStreamer.run env { v with cap := { c2 with pos := 0 } } a n
      else
        { yields := [], state := { v with cap := c2 }, alloc := a, status := .stopped }

/-- State of a `CameraStreamer` object after `__init__`. -/
structure CameraStreamer where
  media_type : MediaType
  camera_device : Int
  stream : Cap
deriving DecidableEq

/-- `CameraStreamer.__init__` (lines 186-189): stores the device index
(defaulting to 0) and calls `cv2.VideoCapture(device)`; the body contains
no raise statement, so construction always succeeds. -/
def CameraStreamer.init (env : Env) (camera_device : Option Int) :
    Except StreamError CameraStreamer :=
  let d := match camera_device with
    | none => 0
    | some i => i
  .ok { media_type := .CAMERA, camera_device := d,
        stream := { frames := env.cameraData d, pos := 0 } }

/-- `CameraStreamer.__iter__` (lines 191-204), one step per pass through
the `while True` body: a failed read breaks the loop (and the device is
released); a successful read is converted and yielded. -/
def CameraStreamer.run (env : Env) (s : CameraStreamer) (a : Nat) : Nat → RunOut CameraStreamer
  | 0 => { yields := [], state := s, alloc := a, status := .running }
  | n + 1 =>
    match s.stream.read with
    | (some d, c2) =>
      let (f, a2) := cvtColor env d a
      let r := CameraStreamer.run env { s with stream := c2 } a2 n
      { yields := f :: r.yields, state := r.state, alloc := r.alloc, status := r.status }
    | (none, c2) =>
      { yields := [], state := { s with stream := c2 }, alloc := a, status := .stopped }

/-- State of a `DirStreamer` object after `__init__`. -/
structure DirStreamer where
  loop : Bool
  media_type : MediaType
  dir : String
  names : List String
  file_id : Nat
deriving DecidableEq

/-- The validation loop at the end of `DirStreamer.__init__` (lines
267-272): reads the listed names in order until one decodes, returning
whether any did; each successful `cv2.imread` allocates a buffer that is
then discarded. -/
def dirProbe (env : Env) (dir : String) : List String → Nat → Bool × Nat
  | [], a => (false, a)
  | n :: rest, a =>
    match imread env (joinPath dir n) a with
    | (none, a2) => dirProbe env dir rest a2
    | (some _, a2) => (true, a2)

/-- `DirStreamer.__init__` (lines 257-272): missing directory raises
`InvalidInput`; an empty listing raises `OpenError`; the sorted listing is
stored with the cursor at 0, and if no listed entry decodes the
constructor raises `OpenError`. -/
def DirStreamer.init (env : Env) (input_path : String) (loop : Bool) (a : Nat) :
    Except StreamError DirStreamer × Nat :=
  if env.isDir input_path = false then
    (.error (.invalidInput ("Cant find the dir by " ++ input_path)), a)
  else
    let names := List.insertionSort strLe (env.listdir input_path)
    if names = [] then
      (.error (.openError ("The dir " ++ input_path ++ " is empty")), a)
    else
      match dirProbe env input_path names a with
      | (true, a2) =>
        (.ok { loop := loop, media_type := .DIR, dir := input_path,
               names := names, file_id := 0 }, a2)
      | (false, a2) =>
        (.error (.openError ("Cant read the first image from " ++ input_path)), a2)

/-- `DirStreamer.__iter__` (lines 274-283), one step per pass through the
`while` body: the entry at the cursor is read, the cursor advances (with
the wrap-to-0 rule of line 281 when `loop` is set), and the frame is
converted and yielded only when the read succeeded. -/
def DirStreamer.run (env : Env) (s : DirStreamer) (a : Nat) : Nat → RunOut DirStreamer
  | 0 => { yields := [], state := s, alloc := a, status := .running }
  | n + 1 =>
    if h : s.file_id < s.names.length then
      let name := s.names[s.file_id]
      let (img, a2) := imread env (joinPath s.dir name) a
      let fid2 :=
        if s.file_id < s.names.length - 1 then s.file_id + 1
        else if s.loop then 0 else s.file_id + 1
      let s2 := { s with file_id := fid2 }
      match img with
      | some f =>
        let (rgb, a3) := cvtColor env f.data a2
        let r := DirStreamer.run env s2 a3 n
        { yields := rgb :: r.yields, state := r.state, alloc := r.alloc, status := r.status }
      | none => DirStreamer.run env s2 a2 n
    else
      { yields := [], state := s, alloc := a, status := .stopped }

/-- The `errors` dictionary of `get_streamer` (line 300): the collected
`InvalidInput` and `OpenError` messages, each class in collection order. -/
structure Errors where
  invalidInput : List String
  openError : List String
deriving DecidableEq

/-- `errors[type(error)].append(error.message)`. -/
def Errors.add (es : Errors) : StreamError → Errors
  | .invalidInput m => { es with invalidInput := es.invalidInput ++ [m] }
  | .openError m => { es with openError := es.openError ++ [m] }

/-- Lines 318-321: the messages printed to stderr on total failure — the
`InvalidInput` messages when no `OpenError` was collected, otherwise the
`OpenError` messages. -/
def fatalMessages (es : Errors) : List String :=
  if es.openError = [] then es.invalidInput else es.openError

/-- A streamer object as returned by `get_streamer`: one of the four
variants, possibly wrapped in a `ThreadedStreamer` with its buffer size. -/
inductive StreamerObj where
  | image (s : ImageStreamer)
  | dir (s : DirStreamer)
  | video (s : VideoStreamer)
  | camera (s : CameraStreamer)
  | threaded (buffer_size : Nat) (inner : StreamerObj)
deriving DecidableEq

/-- `ThreadedStreamer(streamer)` is applied when `threaded` was requested;
its default `buffer_size` is 2. -/
def wrapThreaded (threaded : Bool) (s : StreamerObj) : StreamerObj :=
  if threaded then .threaded 2 s else s

/-- Outcome of `get_streamer`: a returned streamer object, the fatal path
that prints the collected messages to stderr and calls `sys.exit(1)`, or
an uncaught `ValueError` escaping from `int(input_path)`. -/
inductive GetResult where
  | streamer (s : StreamerObj)
  | fatal (messages : List String)
  | valueError
deriving DecidableEq

/-- `get_streamer` (lines 289-322): tries `ImageStreamer`, `DirStreamer`,
`VideoStreamer` in order, collecting `InvalidInput`/`OpenError` failures
and returning the first success (wrapped when `threaded`); then tries
`CameraStreamer(int(input_path))`.  A `ValueError` raised by `int` is not
caught by the `except (InvalidInput, OpenError)` clause, so it escapes; the
fatal print-and-exit branch is reached only if the camera attempt raises
one of the two caught exceptions. -/
def get_streamer (env : Env) (input_path : String) (loop : Bool) (threaded : Bool) (a : Nat) :
    GetResult × Nat :=
  let es : Errors := { invalidInput := [], openError := [] }
  match ImageStreamer.init env input_path loop a with
  | (.ok s, a1) => (.streamer (wrapThreaded threaded (.image s)), a1)
  | (.error e1, a1) =>
    let es := es.add e1
    match DirStreamer.init env input_path loop a1 with
    | (.ok s, a2) => (.streamer (wrapThreaded threaded (.dir s)), a2)
    | (.error e2, a2) =>
      let es := es.add e2
      match VideoStreamer.init env input_path loop with
      | .ok s => (.streamer (wrapThreaded threaded (.video s)), a2)
      | .error e3 =>
        let es := es.add e3
        match env.parseInt input_path with
        | none => (.valueError, a2)
        | some idx =>
          match CameraStreamer.init env (some idx) with
          | .ok s => (.streamer (wrapThreaded threaded (.camera s)), a2)
          | .error e4 => (.fatal (fatalMessages (es.add e4)), a2)

/-- Shared state of the `ThreadedStreamer` producer/consumer pair
(lines 73-84 and 106-128): the frames the inner source has yet to produce,
the queue contents (front = oldest), whether the producer process is
alive, and the frames already delivered to the consumer. -/
structure QState where
  pending : List Frame
  buffer : List Frame
  alive : Bool
  consumed : List Frame
deriving DecidableEq

/-- Atomic steps of the producer/consumer pair.  `put` is one
`buffer.put(frame)` of `_process_run`, enabled while the queue has space
(a `multiprocessing.Queue` with `maxsize` 0 is unbounded); `finish` is the
producer process exiting after its loop; `get` is one successful
`buffer.get` of the consumer loop (a timed-out `get` changes nothing). -/
inductive TStep (cap : Nat) : QState → QState → Prop where
  | put (f : Frame) (rest buf c : List Frame) :
      cap = 0 ∨ buf.length < cap →
      TStep cap { pending := f :: rest, buffer := buf, alive := true, consumed := c }
        { pending := rest, buffer := buf ++ [f], alive := true, consumed := c }
  | finish (buf c : List Frame) :
      TStep cap { pending := [], buffer := buf, alive := true, consumed := c }
        { pending := [], buffer := buf, alive := false, consumed := c }
  | get (p : List Frame) (f : Frame) (buf : List Frame) (alive : Bool) (c : List Frame) :
      TStep cap { pending := p, buffer := f :: buf, alive := alive, consumed := c }
        { pending := p, buffer := buf, alive := alive, consumed := c ++ [f] }

/-- The state right after `ThreadedStreamer.__iter__` starts the producer
for an inner source that will yield `frames`. -/
def QInit (frames : List Frame) : QState :=
  { pending := frames, buffer := [], alive := true, consumed := [] }

/-- The consumer loop `while process.is_alive() or not buffer.empty()`
exits exactly here. -/
def QTerminal (q : QState) : Prop := q.alive = false ∧ q.buffer = []

/-- Executions of the pair: reflexive-transitive closure of the steps. -/
def QReach (cap : Nat) : QState → QState → Prop := Relation.ReflTransGen (TStep cap)

instance {ε α : Type} [DecidableEq ε] [DecidableEq α] : DecidableEq (Except ε α) := fun x y =>
  match x, y with
  | .error a, .error b =>
    if h : a = b then isTrue (by rw [h]) else isFalse (by simp [h])
  | .error _, .ok _ => isFalse (by simp)
  | .ok _, .error _ => isFalse (by simp)
  | .ok a, .ok b =>
    if h : a = b then isTrue (by rw [h]) else isFalse (by simp [h])

/-- The frames produced by a row of consecutive read-convert-yield passes
that starts with allocation counter `a`: used to describe video yields. -/
def convSeq (env : Env) (a : Nat) : List Nat → List Frame
  | [] => []
  | d :: rest => { buf := a, data := env.cvtData d } :: convSeq env (a + 1) rest

/-- An environment in which no locator of any kind exists: no file, no
directory, nothing decodable, no openable video, a camera device that
delivers no frames, and a locator that does not parse as an integer. -/
def envNoCam : Env where
  isFile := fun _ => false
  isDir := fun _ => false
  listdir := fun _ => []
  imreadData := fun _ => none
  videoOpens := fun _ => false
  videoData := fun _ => []
  cameraData := fun _ => []
  cvtData := fun d => d
  parseInt := fun _ => none

/-- An environment holding one directory `d` whose listing is
`[b.png, a.png]` with both entries decodable. -/
def envDir : Env where
  isFile := fun _ => false
  isDir := fun p => p == "d"
  listdir := fun p => if p == "d" then ["b.png", "a.png"] else []
  imreadData := fun p =>
    if p == "d/a.png" then some 1 else if p == "d/b.png" then some 2 else none
  videoOpens := fun _ => false
  videoData := fun _ => []
  cameraData := fun _ => []
  cvtData := fun d => d * 10
  parseInt := fun _ => none

/-- An environment holding one openable video `v` with exactly three
decodable frames. -/
def envVid : Env where
  isFile := fun _ => false
  isDir := fun _ => false
  listdir := fun _ => []
  imreadData := fun _ => none
  videoOpens := fun p => p == "v"
  videoData := fun p => if p == "v" then [10, 11, 12] else []
  cameraData := fun _ => []
  cvtData := fun d => d + 100
  parseInt := fun _ => none

/-- An environment holding one decodable image file `i.png`. -/
def envImg : Env where
  isFile := fun p => p == "i.png"
  isDir := fun _ => false
  listdir := fun _ => []
  imreadData := fun p => if p == "i.png" then some 7 else none
  videoOpens := fun _ => false
  videoData := fun _ => []
  cameraData := fun _ => []
  cvtData := fun d => d + 100
  parseInt := fun _ => none

/-- The `DirStreamer` state produced by opening directory `d` of `envDir`. -/
def dirS : DirStreamer :=
  { loop := false, media_type := .DIR, dir := "d",
    names := ["a.png", "b.png"], file_id := 0 }

/-- The `ImageStreamer` state produced by opening `i.png` of `envImg` with
`loop` set. -/
def imgS : ImageStreamer :=
  { loop := true, media_type := .IMAGE, image := { buf := 1, data := 107 } }

/-- Invariant of the producer/consumer pair: the frames delivered, the
frames in the queue, and the frames still pending always concatenate to
the inner sequence, and a dead producer has nothing pending. -/
def QInv (frames : List Frame) (q : QState) : Prop :=
  q.consumed ++ q.buffer ++ q.pending = frames ∧ (q.alive = false → q.pending = [])

/-- Concrete frames for the queue execution of the order-preservation
witness. -/
def frameA : Frame := { buf := 0, data := 0 }

/-- Second concrete frame of that execution. -/
def frameB : Frame := { buf := 1, data := 1 }

/-- Third concrete frame of that execution. -/
def frameC : Frame := { buf := 2, data := 2 }

/-- Final state of that execution: producer finished, queue drained, all
three frames delivered in order. -/
def qEndC4 : QState :=
  { pending := [], buffer := [], alive := false, consumed := [frameA, frameB, frameC] }

/-- Every listed name failing to decode makes the validation loop of
`DirStreamer.__init__` report failure without allocating. -/
theorem dirProbe_all_none (env : Env) (dir : String) :
    ∀ (names : List String) (a : Nat),
      (∀ n ∈ names, env.imreadData (joinPath dir n) = none) →
      dirProbe env dir names a = (false, a) := by
  intro names
  induction names with
  | nil => intro a _; rfl
  | cons n rest ih =>
    intro a h
    have hn := h n (List.mem_cons_self n rest)
    simp only [dirProbe, imread, hn]
    exact ih a fun m hm => h m (List.mem_cons_of_mem n hm)

/-- C1 (amended): construction-time validation per variant.  `Image`:
missing file gives `InvalidInput`, undecodable file gives `OpenError`.
`Directory`: missing directory gives `InvalidInput`, empty or fully
undecodable listing gives `OpenError`.  `Video`: every failed open gives
`InvalidInput` — also for existing but undecodable content — and
`OpenError` is never raised.  `Camera`: construction performs no
validation and always succeeds, whatever the device index. -/
theorem c1_construction_errors (env : Env) (p : String) (loop : Bool) (a : Nat) :
    (env.isFile p = false →
      ImageStreamer.init env p loop a
        = (.error (.invalidInput ("Cant find the image by " ++ p)), a))
    ∧ (env.isFile p = true → env.imreadData p = none →
      ImageStreamer.init env p loop a
        = (.error (.openError ("Cant open the image from " ++ p)), a))
    ∧ (env.isDir p = false →
      DirStreamer.init env p loop a
        = (.error (.invalidInput ("Cant find the dir by " ++ p)), a))
    ∧ (env.isDir p = true → env.listdir p = [] →
      DirStreamer.init env p loop a
        = (.error (.openError ("The dir " ++ p ++ " is empty")), a))
    ∧ (env.isDir p = true → env.listdir p ≠ [] →
        (∀ n ∈ env.listdir p, env.imreadData (joinPath p n) = none) →
      DirStreamer.init env p loop a
        = (.error (.openError ("Cant read the first image from " ++ p)), a))
    ∧ (env.videoOpens p = false →
      VideoStreamer.init env p loop
        = .error (.invalidInput ("Cant open the video from " ++ p)))
    ∧ (∀ (m : String), VideoStreamer.init env p loop ≠ .error (.openError m))
    ∧ (∀ (d : Option Int), ∃ s, CameraStreamer.init env d = .ok s) := by
  refine ⟨?_, ?_, ?_, ?_, ?_, ?_, ?_, ?_⟩
  · intro h; simp [ImageStreamer.init, h]
  · intro h1 h2; simp [ImageStreamer.init, h1, imread, h2]
  · intro h; simp [DirStreamer.init, h]
  · intro h1 h2; simp [DirStreamer.init, h1, h2, List.insertionSort]
  · intro h1 h2 h3
    have hperm := List.perm_insertionSort strLe (env.listdir p)
    have hne : List.insertionSort strLe (env.listdir p) ≠ [] := by
      intro he
      rw [he] at hperm
      exact h2 hperm.symm.eq_nil
    have hall : ∀ n ∈ List.insertionSort strLe (env.listdir p),
        env.imreadData (joinPath p n) = none :=
      fun n hn => h3 n (hperm.mem_iff.mp hn)
    simp [DirStreamer.init, h1, hne, dirProbe_all_none env p _ a hall]
  · intro h; simp [VideoStreamer.init, h]
  · intro m hcontra
    unfold VideoStreamer.init at hcontra
    split at hcontra <;> simp_all
  · intro d; exact ⟨_, rfl⟩

/-- C1 counterexample: the claim requires `CameraStreamer` construction on
a locator that does not exist to raise `InvalidInput`, but the constructor
contains no validation: in an environment where device 99 delivers no
frames at all, construction succeeds and raises nothing. -/
theorem c1_camera_counterexample :
    CameraStreamer.init envNoCam (some 99)
      = .ok { media_type := .CAMERA, camera_device := 99,
              stream := { frames := [], pos := 0 } } := rfl

/-- C1 witness: the missing-file branch of the amended statement at a
concrete environment. -/
theorem c1_witness :
    ImageStreamer.init envNoCam "nope" false 0
      = (.error (.invalidInput ("Cant find the image by " ++ "nope")), 0) :=
  (c1_construction_errors envNoCam "nope" false 0).1 rfl

/-- C2 (code bug evidence): on a locator that no variant opens and that
does not parse as an integer, `get_streamer` ends in an uncaught
`ValueError` from `int(input_path)` — the branch that would print the
collected messages and call `sys.exit(1)` is not reached. -/
theorem c2_total_failure_value_error :
    get_streamer envNoCam "bogus" false false 0 = (.valueError, 0) := rfl

/-- C3: `get_streamer` tries Image, Directory, Video in that fixed order,
returns the first whose construction raises neither `InvalidInput` nor
`OpenError` (wrapped in a `ThreadedStreamer` when requested), attempts
Camera — by parsing the locator as an integer device index — exactly when
all three failed, and a returned Camera streamer implies all three
variants failed. -/
theorem c3_selector_priority (env : Env) (p : String) (loop threaded : Bool) (a : Nat) :
    (∀ s a1, ImageStreamer.init env p loop a = (.ok s, a1) →
      get_streamer env p loop threaded a
        = (.streamer (wrapThreaded threaded (.image s)), a1))
    ∧ (∀ e1 a1 s a2, ImageStreamer.init env p loop a = (.error e1, a1) →
        DirStreamer.init env p loop a1 = (.ok s, a2) →
      get_streamer env p loop threaded a
        = (.streamer (wrapThreaded threaded (.dir s)), a2))
    ∧ (∀ e1 a1 e2 a2 s, ImageStreamer.init env p loop a = (.error e1, a1) →
        DirStreamer.init env p loop a1 = (.error e2, a2) →
        VideoStreamer.init env p loop = .ok s →
      get_streamer env p loop threaded a
        = (.streamer (wrapThreaded threaded (.video s)), a2))
    ∧ (∀ e1 a1 e2 a2 e3, ImageStreamer.init env p loop a = (.error e1, a1) →
        DirStreamer.init env p loop a1 = (.error e2, a2) →
        VideoStreamer.init env p loop = .error e3 →
      (∀ i, env.parseInt p = some i →
        ∃ s, CameraStreamer.init env (some i) = .ok s ∧
          get_streamer env p loop threaded a
            = (.streamer (wrapThreaded threaded (.camera s)), a2))
      ∧ (env.parseInt p = none →
          get_streamer env p loop threaded a = (.valueError, a2)))
    ∧ (∀ s, (get_streamer env p loop threaded a).1
          = .streamer (wrapThreaded threaded (.camera s)) →
        (∃ e1, (ImageStreamer.init env p loop a).1 = .error e1)
        ∧ (∃ e2, (DirStreamer.init env p loop
            (ImageStreamer.init env p loop a).2).1 = .error e2)
        ∧ (∃ e3, VideoStreamer.init env p loop = .error e3)) := by
  refine ⟨?_, ?_, ?_, ?_, ?_⟩
  · intro s a1 h1
    simp [get_streamer, h1]
  · intro e1 a1 s a2 h1 h2
    simp [get_streamer, h1, h2]
  · intro e1 a1 e2 a2 s h1 h2 h3
    simp [get_streamer, h1, h2, h3]
  · intro e1 a1 e2 a2 e3 h1 h2 h3
    constructor
    · intro i hi
      refine ⟨_, rfl, ?_⟩
      simp [get_streamer, h1, h2, h3, hi, CameraStreamer.init]
    · intro hi
      simp [get_streamer, h1, h2, h3, hi]
  · intro s h
    rcases h1 : ImageStreamer.init env p loop a with ⟨r1, a1⟩
    cases r1 with
    | ok s1 =>
      simp only [get_streamer, h1] at h
      cases threaded <;> simp [wrapThreaded] at h
    | error e1 =>
      rcases h2 : DirStreamer.init env p loop a1 with ⟨r2, a2⟩
      cases r2 with
      | ok s2 =>
        simp only [get_streamer, h1, h2] at h
        cases threaded <;> simp [wrapThreaded] at h
      | error e2 =>
        cases h3 : VideoStreamer.init env p loop with
        | ok s3 =>
          simp only [get_streamer, h1, h2, h3] at h
          cases threaded <;> simp [wrapThreaded] at h
        | error e3 =>
          exact ⟨⟨e1, rfl⟩, ⟨e2, rfl⟩, ⟨e3, rfl⟩⟩

/-- C3 witness: in `envDir` the image variant fails, so the selector
returns the directory variant with the sorted listing. -/
theorem c3_witness :
    get_streamer envDir "d" false false 0
      = (.streamer (wrapThreaded false (.dir dirS)), 1) :=
  (c3_selector_priority envDir "d" false false 0).2.1
    (.invalidInput ("Cant find the image by " ++ "d")) 0 dirS 1
    (by decide) (by decide)

theorem QInv_init (frames : List Frame) : QInv frames (QInit frames) := by
  refine ⟨by simp [QInit], ?_⟩
  intro h
  simp [QInit] at h

theorem QInv_step {cap : Nat} {frames : List Frame} {q q2 : QState}
    (hstep : TStep cap q q2) (hinv : QInv frames q) : QInv frames q2 := by
  obtain ⟨h1, h2⟩ := hinv
  cases hstep with
  | put f rest buf c hcap =>
    refine ⟨?_, fun h => by cases h⟩
    simp only [QInv] at h1 ⊢
    rw [← h1]
    simp
  | finish buf c =>
    exact ⟨h1, fun _ => rfl⟩
  | get p f buf alive c =>
    refine ⟨?_, h2⟩
    simp only [QInv] at h1 ⊢
    rw [← h1]
    simp

theorem QReach_inv {cap : Nat} {frames : List Frame} {q : QState}
    (h : QReach cap (QInit frames) q) : QInv frames q := by
  induction h with
  | refl => exact QInv_init frames
  | tail _ hstep ih => exact QInv_step hstep ih

/-- C4: any execution of the `ThreadedStreamer` producer/consumer pair
that reaches the state where the consumer loop exits — producer process
dead and queue drained — has delivered to the consumer exactly the frames
the inner source produced, in the same order, with no reordering,
duplication, or loss. -/
theorem c4_threaded_preserves_order (cap : Nat) (frames : List Frame) (q : QState)
    (hreach : QReach cap (QInit frames) q) (hterm : QTerminal q) :
    q.consumed = frames := by
  obtain ⟨h1, h2⟩ := QReach_inv hreach
  obtain ⟨ha, hb⟩ := hterm
  rw [h2 ha, hb] at h1
  simpa using h1

/-- C4 witness: a complete interleaved execution with queue capacity 2 on
an inner source yielding three frames delivers exactly those three frames
in order. -/
theorem c4_witness :
    QReach 2 (QInit [frameA, frameB, frameC]) qEndC4
      ∧ qEndC4.consumed = [frameA, frameB, frameC] := by
  have hreach : QReach 2 (QInit [frameA, frameB, frameC]) qEndC4 :=
    Relation.ReflTransGen.head (TStep.put frameA [frameB, frameC] [] [] (Or.inr (by decide)))
      (Relation.ReflTransGen.head (TStep.put frameB [frameC] [frameA] [] (Or.inr (by decide)))
        (Relation.ReflTransGen.head (TStep.get [frameC] frameA [frameB] true [])
          (Relation.ReflTransGen.head (TStep.put frameC [] [frameB] [frameA] (Or.inr (by decide)))
            (Relation.ReflTransGen.head (TStep.finish [frameB, frameC] [frameA])
              (Relation.ReflTransGen.head (TStep.get [] frameB [frameC] false [frameA])
                (Relation.ReflTransGen.head (TStep.get [] frameC [] false [frameA, frameB])
                  Relation.ReflTransGen.refl))))))
  exact ⟨hreach, c4_threaded_preserves_order 2 _ _ hreach ⟨rfl, rfl⟩⟩

/-- A read at a position whose remaining suffix starts with `d` succeeds
with `d` and advances the position. -/
theorem read_of_drop_cons {l : List Nat} {i d : Nat} {rest : List Nat}
    (h : l.drop i = d :: rest) :
    Cap.read { frames := l, pos := i } = (some d, { frames := l, pos := i + 1 }) := by
  have h0 := List.getElem?_drop l i 0
  rw [h] at h0
  have hi : l[i]? = some d := by simpa using h0.symm
  simp [Cap.read, hi]

/-- A read at a position with an empty remaining suffix fails and leaves
the position unchanged. -/
theorem read_of_drop_nil {l : List Nat} {i : Nat} (h : l.drop i = []) :
    Cap.read { frames := l, pos := i } = (none, { frames := l, pos := i }) := by
  have h0 := List.getElem?_drop l i 0
  rw [h] at h0
  have hi : l[i]? = none := by simpa using h0.symm
  simp [Cap.read, hi]

/-- The converted contents of a consecutive-yield row. -/
theorem convSeq_map_data (env : Env) : ∀ (s : List Nat) (a : Nat),
    (convSeq env a s).map Frame.data = s.map env.cvtData := by
  intro s
  induction s with
  | nil => intro a; rfl
  | cons d rest ih => intro a; simp [convSeq, ih]

/-- Running the video body through the remaining suffix of the stream
consumes exactly that suffix, yielding its converted frames in order, and
then continues from the end position. -/
theorem video_run_suffix (env : Env) (mt : MediaType) (lp : Bool) (l : List Nat) :
    ∀ (s : List Nat) (i a n k : Nat), l.drop i = s → s.length = k →
      VideoStreamer.run env { media_type := mt, loop := lp, cap := { frames := l, pos := i } } a
          (k + n)
        = { yields := convSeq env a s
              ++ (VideoStreamer.run env
                { media_type := mt, loop := lp, cap := { frames := l, pos := i + k } }
                (a + k) n).yields,
            state := (VideoStreamer.run env
                { media_type := mt, loop := lp, cap := { frames := l, pos := i + k } }
                (a + k) n).state,
            alloc := (VideoStreamer.run env
                { media_type := mt, loop := lp, cap := { frames := l, pos := i + k } }
                (a + k) n).alloc,
            status := (VideoStreamer.run env
                { media_type := mt, loop := lp, cap := { frames := l, pos := i + k } }
                (a + k) n).status } := by
  intro s
  induction s with
  | nil =>
    intro i a n k _ hk
    subst hk
    simp [convSeq]
  | cons d rest ih =>
    intro i a n k h hk
    subst hk
    have hr := read_of_drop_cons h
    have h2 : l.drop (i + 1) = rest := by
      have hd := List.drop_drop 1 i l
      rw [h] at hd
      simpa [Nat.add_comm] using hd.symm
    have hlen : (d :: rest).length + n = (rest.length + n) + 1 := by
      simp [List.length_cons]
      omega
    rw [hlen]
    simp only [VideoStreamer.run, hr, cvtColor]
    rw [ih (i + 1) (a + 1) n rest.length h2 rfl]
    have e1 : i + 1 + rest.length = i + (d :: rest).length := by
      simp [List.length_cons]
      omega
    have e2 : a + 1 + rest.length = a + (d :: rest).length := by
      simp [List.length_cons]
      omega
    rw [e1, e2]
    simp [convSeq, cvtColor]

/-- With `loop` set, a three-frame video runs in period-4 cycles: three
read-convert-yield passes, then a failed read that seeks back to frame
zero, and the generator never terminates. -/
theorem video_loop_cycle (env : Env) (d0 d1 d2 : Nat) :
    ∀ (m : Nat) (a : Nat),
      ((VideoStreamer.run env
          { media_type := .VIDEO, loop := true, cap := { frames := [d0, d1, d2], pos := 0 } }
          a (4 * m)).yields.map Frame.data
        = (List.replicate m [env.cvtData d0, env.cvtData d1, env.cvtData d2]).flatten)
      ∧ (VideoStreamer.run env
          { media_type := .VIDEO, loop := true, cap := { frames := [d0, d1, d2], pos := 0 } }
          a (4 * m)).status = .running := by
  intro m
  induction m with
  | zero => intro a; simp [VideoStreamer.run]
  | succ m ih =>
    intro a
    have hm : 4 * (m + 1) = 3 + (1 + 4 * m) := by omega
    rw [hm]
    rw [video_run_suffix env .VIDEO true [d0, d1, d2] [d0, d1, d2] 0 a (1 + 4 * m) 3 rfl rfl]
    have hrd := read_of_drop_nil (l := [d0, d1, d2]) (i := 0 + 3) rfl
    have hone : (1 + 4 * m) = (4 * m) + 1 := by omega
    rw [hone]
    simp only [VideoStreamer.run, hrd]
    obtain ⟨ih1, ih2⟩ := ih (a + 3)
    simp [convSeq, convSeq_map_data, ih1, ih2, List.replicate_succ]

/-- C5: for a video whose stream holds exactly three decodable frames,
construction succeeds for either loop flag; with `loop` false the
iteration yields exactly the three frames (in order, converted) and then
terminates, whatever extra steps are taken; with `loop` true the yields
cycle through the three frames indefinitely — after any number of full
period-4 cycles the yields are that many repetitions of the frame triple
and the generator is still running. -/
theorem c5_video_three_frames (env : Env) (p : String) (a : Nat) (d0 d1 d2 : Nat)
    (hopen : env.videoOpens p = true) (hdata : env.videoData p = [d0, d1, d2]) :
    VideoStreamer.init env p false
      = .ok { media_type := .VIDEO, loop := false,
              cap := { frames := [d0, d1, d2], pos := 0 } }
    ∧ VideoStreamer.init env p true
      = .ok { media_type := .VIDEO, loop := true,
              cap := { frames := [d0, d1, d2], pos := 0 } }
    ∧ (∀ k,
        ((VideoStreamer.run env
            { media_type := .VIDEO, loop := false, cap := { frames := [d0, d1, d2], pos := 0 } }
            a (3 + (k + 1))).yields.map Frame.data
          = [env.cvtData d0, env.cvtData d1, env.cvtData d2])
        ∧ (VideoStreamer.run env
            { media_type := .VIDEO, loop := false, cap := { frames := [d0, d1, d2], pos := 0 } }
            a (3 + (k + 1))).status = .stopped)
    ∧ (∀ m,
        ((VideoStreamer.run env
            { media_type := .VIDEO, loop := true, cap := { frames := [d0, d1, d2], pos := 0 } }
            a (4 * m)).yields.map Frame.data
          = (List.replicate m [env.cvtData d0, env.cvtData d1, env.cvtData d2]).flatten)
        ∧ (VideoStreamer.run env
            { media_type := .VIDEO, loop := true, cap := { frames := [d0, d1, d2], pos := 0 } }
            a (4 * m)).status = .running) := by
  refine ⟨by simp [VideoStreamer.init, hopen, hdata], by simp [VideoStreamer.init, hopen, hdata],
    ?_, fun m => video_loop_cycle env d0 d1 d2 m a⟩
  intro k
  rw [video_run_suffix env .VIDEO false [d0, d1, d2] [d0, d1, d2] 0 a (k + 1) 3 rfl rfl]
  have hrd := read_of_drop_nil (l := [d0, d1, d2]) (i := 0 + 3) rfl
  simp only [VideoStreamer.run, hrd]
  simp [convSeq, convSeq_map_data]

/-- C5 witness: the three-frame video of `envVid`, with four steps in the
non-looping case and two full cycles in the looping case. -/
theorem c5_witness :
    ((VideoStreamer.run envVid
        { media_type := .VIDEO, loop := false, cap := { frames := [10, 11, 12], pos := 0 } }
        0 4).yields.map Frame.data = [110, 111, 112])
    ∧ ((VideoStreamer.run envVid
        { media_type := .VIDEO, loop := true, cap := { frames := [10, 11, 12], pos := 0 } }
        0 8).yields.map Frame.data = [110, 111, 112, 110, 111, 112]) := by
  have h := c5_video_three_frames envVid "v" 0 10 11 12 (by decide) (by decide)
  exact ⟨((h.2.2.1 0).1).trans (by decide), ((h.2.2.2 2).1).trans (by decide)⟩

/-- C6: a successfully constructed image source stores the one decoded,
converted frame; with `loop` false the iteration yields exactly that one
frame and terminates; with `loop` true every yield — in particular the
100th — is the stored frame, so the 100th yielded value is pixel-identical
to the 1st. -/
theorem c6_image_iteration (env : Env) (p : String) (a : Nat) (d : Nat)
    (hfile : env.isFile p = true) (hdata : env.imreadData p = some d) :
    (∀ lp, ImageStreamer.init env p lp a
      = (.ok { loop := lp, media_type := .IMAGE,
               image := { buf := a + 1, data := env.cvtData d } }, a + 2))
    ∧ (∀ s : ImageStreamer, s.loop = false → ∀ k,
        ImageStreamer.yields s (k + 1) = [s.image])
    ∧ (∀ s : ImageStreamer, s.loop = true → ∀ n i, i < n →
        (ImageStreamer.yields s n)[i]? = some s.image)
    ∧ (∀ s : ImageStreamer, s.loop = true →
        (ImageStreamer.yields s 100)[99]? = (ImageStreamer.yields s 100)[0]?) := by
  refine ⟨?_, ?_, ?_, ?_⟩
  · intro lp
    simp [ImageStreamer.init, hfile, imread, hdata, cvtColor]
  · intro s hl k
    simp [ImageStreamer.yields, hl]
  · intro s hl n i hi
    simp [ImageStreamer.yields, hl, List.getElem?_replicate, hi]
  · intro s hl
    simp [ImageStreamer.yields, hl, List.getElem?_replicate]

/-- C6 witness: opening `i.png` of `envImg` with `loop` set, the 100th
yield equals the 1st. -/
theorem c6_witness :
    ImageStreamer.init envImg "i.png" true 0 = (.ok imgS, 2)
    ∧ (ImageStreamer.yields imgS 100)[99]? = (ImageStreamer.yields imgS 100)[0]? := by
  have h := c6_image_iteration envImg "i.png" 0 7 (by decide) (by decide)
  exact ⟨h.1 true, h.2.2.2 imgS rfl⟩

/-- A non-looping directory iteration started `k` entries before the end
processes those `k` entries — yielding, in listing order, the converted
frame of every entry that decodes — then terminates with the cursor just
past the last entry. -/
theorem dir_run_complete (env : Env) :
    ∀ (k : Nat) (s : DirStreamer) (b : Nat),
      s.loop = false → s.file_id + k = s.names.length →
      ((DirStreamer.run env s b (k + 1)).yields.map Frame.data
          = (s.names.drop s.file_id).filterMap
              fun n => (env.imreadData (joinPath s.dir n)).map env.cvtData)
      ∧ (DirStreamer.run env s b (k + 1)).status = .stopped
      ∧ (DirStreamer.run env s b (k + 1)).state
          = { s with file_id := s.names.length } := by
  intro k
  induction k with
  | zero =>
    intro s b hlp hfid
    obtain ⟨lp0, mt0, dir0, names0, fid0⟩ := s
    simp only at hlp hfid
    have hge : ¬ fid0 < names0.length := by omega
    simp only [DirStreamer.run, dif_neg hge]
    refine ⟨?_, trivial, ?_⟩
    · simp [List.drop_eq_nil_of_le (show names0.length ≤ fid0 by omega)]
    · simp only [DirStreamer.mk.injEq, eq_self_iff_true, true_and]
      omega
  | succ k ih =>
    intro s b hlp hfid
    obtain ⟨lp0, mt0, dir0, names0, fid0⟩ := s
    simp only at hlp hfid
    subst hlp
    have hlt : fid0 < names0.length := by omega
    have hres := ih ⟨false, mt0, dir0, names0, fid0 + 1⟩ b rfl
      (show fid0 + 1 + k = names0.length by omega)
    have hres2 := ih ⟨false, mt0, dir0, names0, fid0 + 1⟩ (b + 1 + 1) rfl
      (show fid0 + 1 + k = names0.length by omega)
    revert hres hres2
    generalize k + 1 = n
    intro hres hres2
    obtain ⟨h1, h2, h3⟩ := hres
    obtain ⟨h4, h5, h6⟩ := hres2
    simp only at h1 h2 h3 h4 h5 h6
    simp only [DirStreamer.run, dif_pos hlt, Bool.false_eq_true, if_false, ite_self]
    rcases hio : env.imreadData (joinPath dir0 (names0[fid0])) with _ | d
    · simp only [imread, hio]
      have hfil : ((names0.drop fid0).filterMap
            fun m => (env.imreadData (joinPath dir0 m)).map env.cvtData)
          = (names0.drop (fid0 + 1)).filterMap
            fun m => (env.imreadData (joinPath dir0 m)).map env.cvtData := by
        rw [List.drop_eq_getElem_cons hlt]
        simp only [List.filterMap_cons, hio]
        rfl
      rw [hfil]
      exact ⟨h1, h2, h3⟩
    · simp only [imread, hio, cvtColor]
      have hfil : ((names0.drop fid0).filterMap
            fun m => (env.imreadData (joinPath dir0 m)).map env.cvtData)
          = env.cvtData d :: ((names0.drop (fid0 + 1)).filterMap
            fun m => (env.imreadData (joinPath dir0 m)).map env.cvtData) := by
        rw [List.drop_eq_getElem_cons hlt]
        simp only [List.filterMap_cons, hio]
        rfl
      rw [hfil]
      exact ⟨by simp [h4], h5, h6⟩

/-- Inverting a successful `DirStreamer.__init__`: the state stores the
loop flag, the directory, the sorted listing, and cursor 0. -/
theorem DirStreamer.init_ok {env : Env} {p : String} {lp : Bool} {a : Nat}
    {s : DirStreamer} {a2 : Nat}
    (h : DirStreamer.init env p lp a = (.ok s, a2)) :
    s.loop = lp ∧ s.media_type = .DIR ∧ s.dir = p
      ∧ s.names = List.insertionSort strLe (env.listdir p) ∧ s.file_id = 0 := by
  simp only [DirStreamer.init] at h
  split at h
  · simp at h
  · split at h
    · simp at h
    · split at h
      · simp only [Prod.mk.injEq, Except.ok.injEq] at h
        obtain ⟨h1, _⟩ := h
        rw [← h1]
        exact ⟨rfl, rfl, rfl, rfl, rfl⟩
      · simp at h

/-- C7: a successfully opened directory source fixes its entry list at
open time as the lexicographically sorted listing (sorted for the
code-point order on names, a permutation of the raw listing, cursor at 0),
and a full non-looping iteration visits exactly that fixed list in that
order, yielding the converted frame of each entry that decodes. -/
theorem c7_dir_lexicographic (env : Env) (p : String) (lp : Bool) (a : Nat)
    (s : DirStreamer) (a2 : Nat)
    (hinit : DirStreamer.init env p lp a = (.ok s, a2)) :
    List.Sorted strLe s.names
    ∧ List.Perm s.names (env.listdir p)
    ∧ s.file_id = 0
    ∧ (lp = false → ∀ b,
        (DirStreamer.run env s b (s.names.length + 1)).yields.map Frame.data
          = s.names.filterMap fun n => (env.imreadData (joinPath s.dir n)).map env.cvtData) := by
  obtain ⟨hl, _, _, hn, hf⟩ := DirStreamer.init_ok hinit
  refine ⟨?_, ?_, hf, ?_⟩
  · rw [hn]; exact List.sorted_insertionSort strLe (env.listdir p)
  · rw [hn]; exact List.perm_insertionSort strLe (env.listdir p)
  · intro hlp b
    have := (dir_run_complete env s.names.length s b (by rw [hl, hlp]) (by omega)).1
    rw [hf] at this
    simpa using this

/-- C7 witness: with listing `[b.png, a.png]`, iteration yields the frame
of `a.png` (content 1, converted to 10) before the frame of `b.png`
(content 2, converted to 20). -/
theorem c7_witness :
    (DirStreamer.run envDir dirS 1 3).yields.map Frame.data = [10, 20] := by
  have h := c7_dir_lexicographic envDir "d" false 0 dirS 1 (by decide)
  exact (h.2.2.2 rfl 1).trans (by decide)

/-- C9: after one complete non-looping pass over a directory source the
cursor equals the number of listed entries, and from any such exhausted
state every further iteration yields nothing and leaves the state
unchanged — the instance is consumable exactly once. -/
theorem c9_dir_single_pass (env : Env) (p : String) (a : Nat) (s : DirStreamer) (a2 : Nat)
    (hinit : DirStreamer.init env p false a = (.ok s, a2)) :
    (∀ b, (DirStreamer.run env s b (s.names.length + 1)).state.file_id = s.names.length)
    ∧ (∀ (t : DirStreamer) (b n : Nat), t.names.length ≤ t.file_id →
        (DirStreamer.run env t b n).yields = []
        ∧ (DirStreamer.run env t b n).state = t) := by
  obtain ⟨hl, _, _, _, hf⟩ := DirStreamer.init_ok hinit
  constructor
  · intro b
    have := (dir_run_complete env s.names.length s b hl (by omega)).2.2
    rw [this]
  · intro t b n hge
    cases n with
    | zero => exact ⟨rfl, rfl⟩
    | succ n =>
      have hnl : ¬ t.file_id < t.names.length := by omega
      simp only [DirStreamer.run, dif_neg hnl]
      exact ⟨by trivial, by trivial⟩

/-- C9 witness: the two-entry directory of `envDir` ends its pass with
cursor 2, and a second iteration of the exhausted instance yields
nothing. -/
theorem c9_witness :
    (DirStreamer.run envDir dirS 1 3).state.file_id = 2
    ∧ (DirStreamer.run envDir { dirS with file_id := 2 } 5 4).yields = [] := by
  have h := c9_dir_single_pass envDir "d" 0 dirS 1 (by decide)
  exact ⟨h.1 1, (h.2 { dirS with file_id := 2 } 5 4 (by decide)).1⟩

/-- C10: a video source with `loop` set never terminates its iteration:
after any number of body passes the generator is still running — a failed
read only seeks back to frame zero — and when the stream has no decodable
frames at all the iterator keeps retrying without ever yielding. -/
theorem c10_video_loop_never_stops (env : Env) :
    ∀ (n : Nat) (v : VideoStreamer) (a : Nat), v.loop = true →
      (VideoStreamer.run env v a n).status = .running
      ∧ (v.cap.frames = [] → (VideoStreamer.run env v a n).yields = []) := by
  intro n
  induction n with
  | zero => intro v a _; exact ⟨rfl, fun _ => rfl⟩
  | succ n ih =>
    intro v a hl
    obtain ⟨mt0, lp0, ⟨fr0, pos0⟩⟩ := v
    simp only at hl
    subst hl
    refine ⟨?_, ?_⟩
    · simp only [VideoStreamer.run]
      rcases hrd : Cap.read { frames := fr0, pos := pos0 } with ⟨od, c2⟩
      cases od with
      | some d =>
        simp only [cvtColor]
        exact (ih { media_type := mt0, loop := true, cap := c2 } (a + 1) rfl).1
      | none =>
        simp only [if_true]
        exact (ih { media_type := mt0, loop := true, cap := { c2 with pos := 0 } } a rfl).1
    · intro hempty
      simp only at hempty
      subst hempty
      have hrd : Cap.read { frames := ([] : List Nat), pos := pos0 }
          = (none, { frames := [], pos := pos0 }) := by
        simp [Cap.read]
      simp only [VideoStreamer.run, hrd, if_true]
      exact (ih { media_type := mt0, loop := true, cap := { frames := [], pos := 0 } } a rfl).2 rfl

/-- C10 witness: a looping video source whose stream never decodes a frame
is still running after five passes and has yielded nothing. -/
theorem c10_witness :
    (VideoStreamer.run envNoCam
      { media_type := .VIDEO, loop := true, cap := { frames := [], pos := 0 } } 0 5).status
      = .running
    ∧ (VideoStreamer.run envNoCam
      { media_type := .VIDEO, loop := true, cap := { frames := [], pos := 0 } } 0 5).yields
      = [] := by
  have h := c10_video_loop_never_stops envNoCam 5
    { media_type := .VIDEO, loop := true, cap := { frames := [], pos := 0 } } 0 rfl
  exact ⟨h.1, h.2 rfl⟩

/-- Video iteration allocates strictly increasing buffer identifiers: all
yields lie in the allocation window and are pairwise increasing. -/
theorem video_run_fresh (env : Env) :
    ∀ (n : Nat) (v : VideoStreamer) (a : Nat),
      a ≤ (VideoStreamer.run env v a n).alloc
      ∧ (∀ f ∈ (VideoStreamer.run env v a n).yields,
          a ≤ f.buf ∧ f.buf < (VideoStreamer.run env v a n).alloc)
      ∧ List.Pairwise (fun f g => f.buf < g.buf) (VideoStreamer.run env v a n).yields := by
  intro n
  induction n with
  | zero =>
    intro v a
    exact ⟨le_refl a, by simp [VideoStreamer.run], by simp [VideoStreamer.run]⟩
  | succ n ih =>
    intro v a
    simp only [VideoStreamer.run]
    rcases hrd : v.cap.read with ⟨od, c2⟩
    cases od with
    | some d =>
      simp only [cvtColor]
      obtain ⟨ih1, ih2, ih3⟩ := ih { v with cap := c2 } (a + 1)
      refine ⟨by omega, ?_, ?_⟩
      · intro f hf
        rcases List.mem_cons.mp hf with hf | hf
        · subst hf
          exact ⟨le_refl a, by have := ih1; simp only; omega⟩
        · have hff := ih2 f hf
          exact ⟨by omega, hff.2⟩
      · refine List.pairwise_cons.mpr ⟨?_, ih3⟩
        intro g hg
        have hgg := ih2 g hg
        simp only
        omega
    | none =>
      cases hlp : v.loop with
      | true =>
        simp only [if_true]
        exact ih { media_type := v.media_type, loop := true, cap := { c2 with pos := 0 } } a
      | false =>
        simp only [Bool.false_eq_true, if_false]
        exact ⟨le_refl a, by simp, by simp⟩

/-- Camera iteration allocates strictly increasing buffer identifiers. -/
theorem camera_run_fresh (env : Env) :
    ∀ (n : Nat) (s : CameraStreamer) (a : Nat),
      a ≤ (CameraStreamer.run env s a n).alloc
      ∧ (∀ f ∈ (CameraStreamer.run env s a n).yields,
          a ≤ f.buf ∧ f.buf < (CameraStreamer.run env s a n).alloc)
      ∧ List.Pairwise (fun f g => f.buf < g.buf) (CameraStreamer.run env s a n).yields := by
  intro n
  induction n with
  | zero =>
    intro s a
    exact ⟨le_refl a, by simp [CameraStreamer.run], by simp [CameraStreamer.run]⟩
  | succ n ih =>
    intro s a
    simp only [CameraStreamer.run]
    rcases hrd : s.stream.read with ⟨od, c2⟩
    cases od with
    | some d =>
      simp only [cvtColor]
      obtain ⟨ih1, ih2, ih3⟩ := ih { s with stream := c2 } (a + 1)
      refine ⟨by omega, ?_, ?_⟩
      · intro f hf
        rcases List.mem_cons.mp hf with hf | hf
        · subst hf
          exact ⟨le_refl a, by have := ih1; simp only; omega⟩
        · have hff := ih2 f hf
          exact ⟨by omega, hff.2⟩
      · refine List.pairwise_cons.mpr ⟨?_, ih3⟩
        intro g hg
        have hgg := ih2 g hg
        simp only
        omega
    | none =>
      exact ⟨le_refl a, by simp, by simp⟩

/-- Directory iteration allocates strictly increasing buffer identifiers
for its yields. -/
theorem dir_run_fresh (env : Env) :
    ∀ (n : Nat) (s : DirStreamer) (a : Nat),
      a ≤ (DirStreamer.run env s a n).alloc
      ∧ (∀ f ∈ (DirStreamer.run env s a n).yields,
          a ≤ f.buf ∧ f.buf < (DirStreamer.run env s a n).alloc)
      ∧ List.Pairwise (fun f g => f.buf < g.buf) (DirStreamer.run env s a n).yields := by
  intro n
  induction n with
  | zero =>
    intro s a
    exact ⟨le_refl a, by simp [DirStreamer.run], by simp [DirStreamer.run]⟩
  | succ n ih =>
    intro s a
    by_cases hlt : s.file_id < s.names.length
    · simp only [DirStreamer.run, dif_pos hlt]
      generalize (if s.file_id < s.names.length - 1 then s.file_id + 1
        else if s.loop then 0 else s.file_id + 1) = fid2
      rcases hio : env.imreadData (joinPath s.dir (s.names[s.file_id])) with _ | d
      · simp only [imread, hio]
        exact ih { s with file_id := fid2 } a
      · simp only [imread, hio, cvtColor]
        obtain ⟨ih1, ih2, ih3⟩ := ih { s with file_id := fid2 } (a + 1 + 1)
        refine ⟨by omega, ?_, ?_⟩
        · intro f hf
          rcases List.mem_cons.mp hf with hf | hf
          · subst hf
            refine ⟨?_, ?_⟩ <;> simp only <;> omega
          · have hff := ih2 f hf
            exact ⟨by omega, hff.2⟩
        · refine List.pairwise_cons.mpr ⟨?_, ih3⟩
          intro g hg
          have hgg := ih2 g hg
          simp only
          omega
    · simp only [DirStreamer.run, dif_neg hlt]
      exact ⟨le_refl a, by simp, by simp⟩

/-- C8 (amended): Video, Directory and Camera sources convert a freshly
allocated buffer for every yield, so within any iteration no two of their
yields share an underlying buffer; the Image source, by contrast, converts
once at construction and every yield returns that same stored buffer. -/
theorem c8_buffer_freshness (env : Env) :
    (∀ (n : Nat) (v : VideoStreamer) (a : Nat),
      List.Pairwise (fun f g => f.buf ≠ g.buf) (VideoStreamer.run env v a n).yields)
    ∧ (∀ (n : Nat) (s : DirStreamer) (a : Nat),
      List.Pairwise (fun f g => f.buf ≠ g.buf) (DirStreamer.run env s a n).yields)
    ∧ (∀ (n : Nat) (s : CameraStreamer) (a : Nat),
      List.Pairwise (fun f g => f.buf ≠ g.buf) (CameraStreamer.run env s a n).yields)
    ∧ (∀ (s : ImageStreamer) (n : Nat), ∀ f ∈ ImageStreamer.yields s n, f = s.image) := by
  refine ⟨?_, ?_, ?_, ?_⟩
  · intro n v a
    exact ((video_run_fresh env n v a).2.2).imp fun h => Nat.ne_of_lt h
  · intro n s a
    exact ((dir_run_fresh env n s a).2.2).imp fun h => Nat.ne_of_lt h
  · intro n s a
    exact ((camera_run_fresh env n s a).2.2).imp fun h => Nat.ne_of_lt h
  · intro s n f hf
    unfold ImageStreamer.yields at hf
    split at hf
    · exact List.eq_of_mem_replicate hf
    · have := List.mem_of_mem_take hf
      simpa using this

/-- C8 counterexample: the claim, applied to the Image variant with `loop`
set, requires distinct yields to carry distinct underlying buffers; but
after opening `i.png` the first two yields both return the buffer with
identifier 1 — the very same stored object. -/
theorem c8_counterexample :
    ImageStreamer.init envImg "i.png" true 0 = (.ok imgS, 2)
    ∧ (ImageStreamer.yields imgS 2).map Frame.buf = [1, 1] := by
  exact ⟨by decide, by decide⟩

/-- C8 witness: instantiating the amended statement — the second yield of
the looping image streamer is the stored frame, and a concrete video run
has pairwise distinct buffers. -/
theorem c8_witness :
    ((⟨1, 107⟩ : Frame) = imgS.image)
    ∧ List.Pairwise (fun f g => f.buf ≠ g.buf)
      (VideoStreamer.run envVid
        { media_type := .VIDEO, loop := false, cap := { frames := [10, 11, 12], pos := 0 } }
        0 4).yields := by
  have h := c8_buffer_freshness envVid
  exact ⟨h.2.2.2 imgS 2 ⟨1, 107⟩ (by decide), h.1 4
    { media_type := .VIDEO, loop := false, cap := { frames := [10, 11, 12], pos := 0 } } 0⟩
